import Mathlib

/-!
Verification development for the infraflow Terraform generator scripts.

Each generator script (DynamoDB, CloudFront, Route53, EC2, IAM) is embedded
shallowly: its option record, its validation code, and its artifact-producing
functions become Lean definitions over `String` and `List String` (one entry
per emitted line).  The file-watcher merge pipeline is embedded as a pure
state transformer on the output folder.  JavaScript-specific semantics
(truthiness, `parseInt`, `split`, template interpolation of `undefined`) are
modelled by dedicated helper functions.
-/

namespace Infraflow

/-- Truthiness of an optional string option as JavaScript sees it:
`undefined` and the empty string are falsy, everything else truthy. -/
def jsTruthy : Option String → Bool
  | none => false
  | some s => s ≠ ""

/-- Template-literal interpolation of a possibly-`undefined` value:
JavaScript renders `undefined` as the text "undefined". -/
def jsStr : Option String → String
  | none => "undefined"
  | some s => s

/-- JavaScript `x || d` where `x` may be `undefined` or a string:
falsy values (`undefined`, the empty string) yield the default. -/
def jsOr (x : Option String) (d : String) : String :=
  match x with
  | none => d
  | some s => if s = "" then d else s

/-- Interpolation of a possibly-`undefined` number. -/
def jsNumStr : Option Int → String
  | none => "undefined"
  | some n => toString n

/-- Interpolation of a boolean. -/
def jsBoolStr (b : Bool) : String := if b then "true" else "false"

/-- Splits a character list at every occurrence of `c`; always returns at
least one (possibly empty) piece, like JavaScript `String.prototype.split`
with a single-character separator. -/
def splitCharAux (c : Char) : List Char → List (List Char)
  | [] => [[]]
  | x :: xs =>
    match splitCharAux c xs with
    | [] => [[]]
    | h :: t => if x = c then [] :: h :: t else (x :: h) :: t

/-- Model of JavaScript `s.split(c)` for a one-character separator `c`. -/
def jsSplit (s : String) (c : Char) : List String :=
  (splitCharAux c s.data).map fun l => String.mk l

/-- Model of JavaScript `s.toUpperCase()` (ASCII portion). -/
def jsToUpper (s : String) : String := String.mk (s.data.map Char.toUpper)

/-- Model of JavaScript `s.trim()` (ASCII whitespace portion). -/
def jsTrim (s : String) : String :=
  String.mk (((s.data.dropWhile Char.isWhitespace).reverse.dropWhile Char.isWhitespace).reverse)

/-- Value of a string of decimal digits. -/
def digitsToNat (cs : List Char) : Nat :=
  cs.foldl (fun a c => a * 10 + (c.toNat - 48)) 0

/-- Parses the longest leading run of decimal digits; `none` when there is
no leading digit (JavaScript `parseInt` returning `NaN`). -/
def parseDigits (cs : List Char) : Option Nat :=
  let ds := cs.takeWhile Char.isDigit
  if ds.isEmpty then none else some (digitsToNat ds)

/-- Model of JavaScript `parseInt(s, 10)`: leading whitespace skipped,
optional sign, longest digit prefix; `none` models `NaN`. -/
def jsParseInt (s : String) : Option Int :=
  match s.data.dropWhile Char.isWhitespace with
  | '-' :: rest => (parseDigits rest).map fun n => -(n : Int)
  | '+' :: rest => (parseDigits rest).map fun n => (n : Int)
  | cs => (parseDigits cs).map fun n => (n : Int)

/-- Model of `console.error(message)` followed by `process.exit(exitCode)` —
the only failure channel the generator scripts use. -/
structure ProcessExit where
  exitCode : Nat
  message : String
deriving DecidableEq

/-- Modelled after the commander library's behaviour for a missing
`requiredOption`: parsing aborts the process with an error message that
names the missing flag. -/
def requiredErr (flag : String) : ProcessExit :=
  ⟨1, "error: required option " ++ flag ++ " not specified"⟩

namespace Route53

/-- Option record of generateRoute53Terraform.ts, as commander produces it
(defaults applied; required options still `Option` so that commander's own
missing-required failure can be stated). -/
structure Options where
  hostedZone : Option String
  hostedZoneType : String := "PUBLIC"
  vpcId : Option String := none
  record : List String := []
  preventDestroy : Bool := false
deriving DecidableEq

/-- Parsed DNS record (interface DNSRecord of the source). -/
structure DNSRecord where
  type : String
  name : String
  value : String
  ttl : Int
deriving DecidableEq

/-- Message for a record with fewer than 4 colon-delimited parts. -/
def dnsFormatMsg (record : String) : String :=
  "Error: Invalid record format \"" ++ record ++ "\". Expected format: type:name:value:ttl"

/-- Message for a record whose TTL part does not parse as a number. -/
def dnsTtlMsg (ttlStr record : String) : String :=
  "Error: Invalid TTL value \"" ++ ttlStr ++ "\" in record \"" ++ record ++ "\"."

/-- Embedding of `parseDNSRecords`: each raw string is split on `:`,
must have at least 4 parts and a numeric TTL; the first bad record aborts
the process (the source maps with `process.exit(1)` inside). -/
def parseDNSRecords : List String → Except ProcessExit (List DNSRecord)
  | [] => .ok []
  | r :: rs =>
    let parts := jsSplit r ':'
    if parts.length < 4 then
      .error ⟨1, dnsFormatMsg r⟩
    else
      match jsParseInt (parts.getD 3 "") with
      | none => .error ⟨1, dnsTtlMsg (parts.getD 3 "") r⟩
      | some ttl =>
        match parseDNSRecords rs with
        | .error e => .error e
        | .ok recs =>
          .ok (⟨jsToUpper (parts.getD 0 ""), parts.getD 1 "", parts.getD 2 "", ttl⟩ :: recs)

/-- Well-formedness of one raw DNS record string: at least 4 colon-delimited
parts and a parseable TTL in the fourth part. -/
def dnsWellFormed (r : String) : Prop :=
  4 ≤ (jsSplit r ':').length ∧ jsParseInt ((jsSplit r ':').getD 3 "") ≠ none

instance (r : String) : Decidable (dnsWellFormed r) := by
  unfold dnsWellFormed; infer_instance

/-- Validation of generateRoute53Terraform.ts: commander's required
`--hosted-zone` check, then the explicit PRIVATE-zone check (lines 43-46). -/
def resolve (o : Options) : Except ProcessExit Unit :=
  if o.hostedZone = none then .error (requiredErr "--hosted-zone <name>")
  else if jsToUpper o.hostedZoneType = "PRIVATE" ∧ ¬ jsTruthy o.vpcId then
    .error ⟨1, "Error: --vpc-id is required when hosted zone type is PRIVATE."⟩
  else .ok ()

/-- Lines pushed per parsed record inside the `dns_records` variable block. -/
def recordVarLines (r : DNSRecord) : List String :=
  ["    \x7b",
   "      type  = \"" ++ r.type ++ "\"",
   "      name  = \"" ++ r.name ++ "\"",
   "      value = \"" ++ r.value ++ "\"",
   "      ttl   = " ++ toString r.ttl,
   "    \x7d,"]

/-- Embedding of `generateVariablesTF` of generateRoute53Terraform.ts as a
list of emitted lines. -/
def variablesLines (o : Options) (dnsRecords : List DNSRecord) : List String :=
  ["variable \"hosted_zone_name\" \x7b",
   "  description = \"Name of the Route53 hosted zone.\"",
   "  type        = string",
   "  default     = \"" ++ jsStr o.hostedZone ++ "\"",
   "\x7d",
   "",
   "variable \"hosted_zone_type\" \x7b",
   "  description = \"Type of the hosted zone: PUBLIC or PRIVATE.\"",
   "  type        = string",
   "  default     = \"" ++ jsToUpper o.hostedZoneType ++ "\"",
   "\x7d"]
  ++ (if jsToUpper o.hostedZoneType = "PRIVATE" then
      ["",
       "variable \"vpc_id\" \x7b",
       "  description = \"VPC ID for the private hosted zone.\"",
       "  type        = string",
       "  default     = \"" ++ jsStr o.vpcId ++ "\"",
       "\x7d"] else [])
  ++ (if 0 < dnsRecords.length then
      ["",
       "variable \"dns_records\" \x7b",
       "  description = \"List of DNS records to create.\"",
       "  type = list(object(\x7b",
       "    type  = string",
       "    name  = string",
       "    value = string",
       "    ttl   = number",
       "  \x7d))",
       "  default = ["]
      ++ dnsRecords.flatMap recordVarLines
      ++ ["  ]", "\x7d"] else [])
  ++ (if o.preventDestroy then
      ["",
       "variable \"prevent_destroy\" \x7b",
       "  description = \"Prevent destruction of the hosted zone.\"",
       "  type        = bool",
       "  default     = true",
       "\x7d"] else [])

/-- Lines pushed per parsed record in `generateMainTF` (index is 0-based;
the resource name uses index + 1). -/
def recordMainLines (iv : Nat × DNSRecord) : List String :=
  ["",
   "resource \"aws_route53_record\" \"record_" ++ toString (iv.1 + 1) ++ "\" \x7b",
   "  zone_id = aws_route53_zone.hosted_zone.zone_id",
   "  name    = var.dns_records[" ++ toString iv.1 ++ "].name",
   "  type    = var.dns_records[" ++ toString iv.1 ++ "].type",
   "  ttl     = var.dns_records[" ++ toString iv.1 ++ "].ttl",
   "  records = [var.dns_records[" ++ toString iv.1 ++ "].value]",
   "  depends_on = [aws_route53_zone.hosted_zone]",
   "\x7d"]

/-- Embedding of `generateMainTF` of generateRoute53Terraform.ts. -/
def mainLines (o : Options) (dnsRecords : List DNSRecord) : List String :=
  ["",
   "resource \"aws_route53_zone\" \"hosted_zone\" \x7b",
   "  name = var.hosted_zone_name",
   "  type = var.hosted_zone_type"]
  ++ (if jsToUpper o.hostedZoneType = "PRIVATE" then
      ["  vpc \x7b", "    vpc_id = var.vpc_id", "  \x7d"] else [])
  ++ (if o.preventDestroy then
      ["", "  lifecycle \x7b", "    prevent_destroy = var.prevent_destroy", "  \x7d"] else [])
  ++ ["\x7d"]
  ++ (if 0 < dnsRecords.length then dnsRecords.enum.flatMap recordMainLines else [])

/-- Embedding of `generateOutputsTF` of generateRoute53Terraform.ts. -/
def outputsLines (dnsRecords : List DNSRecord) : List String :=
  ["output \"hosted_zone_id\" \x7b",
   "  description = \"The ID of the Route53 hosted zone.\"",
   "  value       = aws_route53_zone.hosted_zone.zone_id",
   "\x7d",
   "",
   "output \"hosted_zone_name_servers\" \x7b",
   "  description = \"The name servers for the hosted zone.\"",
   "  value       = aws_route53_zone.hosted_zone.name_servers",
   "\x7d"]
  ++ (if 0 < dnsRecords.length then
      ["",
       "output \"dns_record_ids\" \x7b",
       "  description = \"The IDs of the DNS records.\"",
       "  value       = [" ++
         String.intercalate ", "
           ((List.range dnsRecords.length).map fun i =>
             "aws_route53_record.record_" ++ toString (i + 1) ++ ".id") ++ "]",
       "\x7d"] else [])

/-- Whole-script pipeline of generateRoute53Terraform.ts: validation, then
record parsing, then the three artifacts; any failure aborts before any
artifact is produced. -/
def generate (o : Options) :
    Except ProcessExit (List String × List String × List String) :=
  match resolve o with
  | .error e => .error e
  | .ok () =>
    match parseDNSRecords o.record with
    | .error e => .error e
    | .ok recs => .ok (variablesLines o recs, mainLines o recs, outputsLines recs)

end Route53

namespace Dynamo

/-- Option record of generateDynamoDBTerraform.ts, as commander produces it
(defaults applied; required options and value-taking optional flags kept as
`Option` so absence can be stated). -/
structure Options where
  tableName : Option String
  hashKey : Option String
  hashKeyType : Option String
  rangeKey : Option String := none
  rangeKeyType : Option String := none
  billingMode : String := "PAY_PER_REQUEST"
  readCapacity : Option Int := none
  writeCapacity : Option Int := none
  attrs : List String := []  -- source option name: attribute (a Lean keyword)
  gsi : List String := []
  streamEnabled : Bool := false
  streamViewType : Option String := none
  lifecyclePreventDestroy : Bool := false
deriving DecidableEq

/-- Validation of generateDynamoDBTerraform.ts: commander's three required
options in registration order, then the explicit checks of lines 58-74. -/
def resolve (o : Options) : Except ProcessExit Unit :=
  if o.tableName = none then .error (requiredErr "--table-name <name>")
  else if o.hashKey = none then .error (requiredErr "--hash-key <attribute>")
  else if o.hashKeyType = none then .error (requiredErr "--hash-key-type <type>")
  else if o.billingMode = "PROVISIONED" ∧ (o.readCapacity = none ∨ o.writeCapacity = none) then
    .error ⟨1, "Error: --read-capacity and --write-capacity are required when billing mode is PROVISIONED."⟩
  else if jsTruthy o.rangeKey ∧ ¬ jsTruthy o.rangeKeyType then
    .error ⟨1, "Error: --range-key-type is required when --range-key is specified."⟩
  else if jsTruthy o.streamViewType ∧ ¬ o.streamEnabled then
    .error ⟨1, "Error: --stream-enabled must be set when --stream-view-type is specified."⟩
  else .ok ()

/-- Line pushed per `--attribute` record in `generateVariablesTF`: the raw
string is split on `:` and the first two parts are interpolated directly
(no minimum-part check; a missing part renders as "undefined"). -/
def attrVarLine (attr : String) : String :=
  let parts := jsSplit attr ':'
  "    \x7b name = \"" ++ jsStr (parts.get? 0) ++ "\", type = \"" ++ jsStr (parts.get? 1) ++ "\" \x7d,"

/-- Line pushed per `--gsi` record in `generateVariablesTF`, mirroring the
source's `parts[i]` indexing, its `parts[4] || ''` / `parts[5] || '5'`
defaults, and its conditional segments. -/
def gsiVarLine (billingMode : String) (g : String) : String :=
  let parts := jsSplit g ':'
  let name := jsStr (parts.get? 0)
  let hashKey := jsStr (parts.get? 1)
  let hashKeyType := jsStr (parts.get? 2)
  let rangeKey := if 3 < parts.length then jsStr (parts.get? 3) else ""
  let rangeKeyType := if 3 < parts.length then jsOr (parts.get? 4) "" else ""
  let readCapacity := if billingMode = "PROVISIONED" then jsOr (parts.get? 5) "5" else ""
  let writeCapacity := if billingMode = "PROVISIONED" then jsOr (parts.get? 6) "5" else ""
  let line := "    \x7b name = \"" ++ name ++ "\", hash_key = \"" ++ hashKey ++
    "\", hash_key_type = \"" ++ hashKeyType ++ "\""
  let line := if rangeKey ≠ "" ∧ rangeKeyType ≠ "" then
    line ++ ", range_key = \"" ++ rangeKey ++ "\", range_key_type = \"" ++ rangeKeyType ++ "\""
    else line
  let line := if billingMode = "PROVISIONED" then
    line ++ ", read_capacity = " ++ readCapacity ++ ", write_capacity = " ++ writeCapacity
    else line
  line ++ " \x7d,"

/-- Embedding of `generateVariablesTF` of generateDynamoDBTerraform.ts. -/
def variablesLines (o : Options) : List String :=
  ["variable \"table_name\" \x7b",
   "  description = \"Name of the DynamoDB table.\"",
   "  type        = string",
   "  default     = \"" ++ jsStr o.tableName ++ "\"",
   "\x7d",
   "",
   "variable \"hash_key\" \x7b",
   "  description = \"Name of the hash (partition) key.\"",
   "  type        = string",
   "  default     = \"" ++ jsStr o.hashKey ++ "\"",
   "\x7d",
   "",
   "variable \"hash_key_type\" \x7b",
   "  description = \"Type of the hash key (S, N, B).\"",
   "  type        = string",
   "  default     = \"" ++ jsStr o.hashKeyType ++ "\"",
   "\x7d"]
  ++ (if jsTruthy o.rangeKey then
      ["",
       "variable \"range_key\" \x7b",
       "  description = \"Name of the range (sort) key.\"",
       "  type        = string",
       "  default     = \"" ++ jsStr o.rangeKey ++ "\"",
       "\x7d",
       "",
       "variable \"range_key_type\" \x7b",
       "  description = \"Type of the range key (S, N, B).\"",
       "  type        = string",
       "  default     = \"" ++ jsStr o.rangeKeyType ++ "\"",
       "\x7d"] else [])
  ++ ["",
      "variable \"billing_mode\" \x7b",
      "  description = \"Billing mode for the DynamoDB table.\"",
      "  type        = string",
      "  default     = \"" ++ o.billingMode ++ "\"",
      "\x7d"]
  ++ (if o.billingMode = "PROVISIONED" then
      ["",
       "variable \"read_capacity\" \x7b",
       "  description = \"Read capacity units.\"",
       "  type        = number",
       "  default     = " ++ jsNumStr o.readCapacity,
       "\x7d",
       "",
       "variable \"write_capacity\" \x7b",
       "  description = \"Write capacity units.\"",
       "  type        = number",
       "  default     = " ++ jsNumStr o.writeCapacity,
       "\x7d"] else [])
  ++ (if 0 < o.attrs.length then
      ["",
       "variable \"attributes\" \x7b",
       "  description = \"List of attribute definitions.\"",
       "  type        = list(object(\x7b",
       "    name = string",
       "    type = string",
       "  \x7d))",
       "  default     = ["]
      ++ o.attrs.map attrVarLine
      ++ ["  ]", "\x7d"] else [])
  ++ (if 0 < o.gsi.length then
      ["",
       "variable \"global_secondary_indexes\" \x7b",
       "  description = \"List of Global Secondary Indexes.\"",
       "  type        = list(object(\x7b",
       "    name            = string",
       "    hash_key        = string",
       "    hash_key_type   = string",
       "    range_key       = optional(string)",
       "    range_key_type  = optional(string)",
       "    read_capacity   = optional(number)",
       "    write_capacity  = optional(number)",
       "  \x7d))",
       "  default     = ["]
      ++ o.gsi.map (gsiVarLine o.billingMode)
      ++ ["  ]", "\x7d"] else [])
  ++ (if o.streamEnabled then
      ["",
       "variable \"stream_enabled\" \x7b",
       "  description = \"Enable DynamoDB streams.\"",
       "  type        = bool",
       "  default     = true",
       "\x7d",
       "",
       "variable \"stream_view_type\" \x7b",
       "  description = \"Stream view type.\"",
       "  type        = string",
       "  default     = \"" ++ jsOr o.streamViewType "NEW_IMAGE" ++ "\"",
       "\x7d"] else [])
  ++ (if o.lifecyclePreventDestroy then
      ["",
       "variable \"prevent_destroy\" \x7b",
       "  description = \"Prevent destruction of the DynamoDB table.\"",
       "  type        = bool",
       "  default     = true",
       "\x7d"] else [])

/-- Embedding of `generateOutputsTF` of generateDynamoDBTerraform.ts. -/
def outputsLines : List String :=
  ["output \"dynamodb_table_name\" \x7b",
   "  description = \"The name of the DynamoDB table.\"",
   "  value       = aws_dynamodb_table.table.name",
   "\x7d",
   "",
   "output \"dynamodb_table_arn\" \x7b",
   "  description = \"The ARN of the DynamoDB table.\"",
   "  value       = aws_dynamodb_table.table.arn",
   "\x7d",
   ""]

/-- Lines pushed per `--attribute` record in `generateMainTF` (again split
on `:` with no shape check). -/
def attrMainLines (attr : String) : List String :=
  let parts := jsSplit attr ':'
  ["    name = \"" ++ jsStr (parts.get? 0) ++ "\"",
   "    type = \"" ++ jsStr (parts.get? 1) ++ "\""]

/-- Lines pushed per `--gsi` record in `generateMainTF`, duplicating the
parsing logic of `gsiVarLine` as the source does. -/
def gsiMainLines (billingMode : String) (g : String) : List String :=
  let parts := jsSplit g ':'
  let name := jsStr (parts.get? 0)
  let hashKey := jsStr (parts.get? 1)
  let hashKeyType := jsStr (parts.get? 2)
  let rangeKey := if 3 < parts.length then jsStr (parts.get? 3) else ""
  let rangeKeyType := if 3 < parts.length then jsOr (parts.get? 4) "" else ""
  let readCapacity := if billingMode = "PROVISIONED" then jsOr (parts.get? 5) "5" else ""
  let writeCapacity := if billingMode = "PROVISIONED" then jsOr (parts.get? 6) "5" else ""
  ["  global_secondary_index \x7b",
   "    name               = \"" ++ name ++ "\"",
   "    hash_key           = \"" ++ hashKey ++ "\"",
   "    hash_key_type      = \"" ++ hashKeyType ++ "\""]
  ++ (if rangeKey ≠ "" ∧ rangeKeyType ≠ "" then
      ["    range_key          = \"" ++ rangeKey ++ "\"",
       "    range_key_type     = \"" ++ rangeKeyType ++ "\""] else [])
  ++ ["    projection_type    = \"ALL\""]
  ++ (if billingMode = "PROVISIONED" then
      ["    read_capacity      = " ++ readCapacity,
       "    write_capacity     = " ++ writeCapacity] else [])
  ++ ["  \x7d", ""]

/-- Embedding of `generateMainTF` of generateDynamoDBTerraform.ts. -/
def mainLines (o : Options) : List String :=
  ["resource \"aws_dynamodb_table\" \"table\" \x7b",
   "  name           = var.table_name",
   "  billing_mode   = var.billing_mode",
   "  hash_key       = var.hash_key"]
  ++ (if jsTruthy o.rangeKey then ["  range_key      = var.range_key"] else [])
  ++ (if 0 < o.attrs.length then
      ["  attribute \x7b"] ++ o.attrs.flatMap attrMainLines ++ ["  \x7d"] else [])
  ++ (if o.billingMode = "PROVISIONED" then
      ["  read_capacity  = var.read_capacity",
       "  write_capacity = var.write_capacity"] else [])
  ++ (if 0 < o.gsi.length then [""] ++ o.gsi.flatMap (gsiMainLines o.billingMode) else [])
  ++ (if o.streamEnabled then
      ["  stream_enabled   = var.stream_enabled",
       "  stream_view_type = var.stream_view_type"] else [])
  ++ (if o.lifecyclePreventDestroy then
      ["", "  lifecycle \x7b", "    prevent_destroy = var.prevent_destroy", "  \x7d"] else [])
  ++ ["\x7d"]

/-- Whole-script pipeline of generateDynamoDBTerraform.ts: validation, then
the three artifacts (written in the order variables, main, outputs). -/
def generate (o : Options) :
    Except ProcessExit (List String × List String × List String) :=
  match resolve o with
  | .error e => .error e
  | .ok () => .ok (variablesLines o, mainLines o, outputsLines)

end Dynamo

namespace CloudFront

/-- Option record of generateCloudFrontTerraform.ts, as commander produces
it (defaults applied). -/
structure Options where
  distributionName : Option String
  originDomainName : Option String
  originId : Option String
  defaultRootObject : String := "index.html"
  enabled : Bool := true
  comment : Option String := none
  priceClass : String := "PriceClass_All"
  viewerProtocolPolicy : String := "redirect-to-https"
  sslCertificateArn : Option String := none
  minimumTlsVersion : String := "TLSv1.2_2019"
  loggingEnabled : Bool := false
  loggingS3Bucket : Option String := none
  loggingPrefixOpt : String := "cloudfront-logs/"  -- source option name: loggingPrefix
  geoRestriction : String := "none"
  geoRestrictionIds : Option String := none
  preventDestroy : Bool := false
deriving DecidableEq

/-- Validation of generateCloudFrontTerraform.ts: commander's three required
options in registration order, then the explicit checks of lines 63-84. -/
def resolve (o : Options) : Except ProcessExit Unit :=
  if o.distributionName = none then .error (requiredErr "--distribution-name <name>")
  else if o.originDomainName = none then .error (requiredErr "--origin-domain-name <domain>")
  else if o.originId = none then .error (requiredErr "--origin-id <id>")
  else if (o.viewerProtocolPolicy = "redirect-to-https" ∨ o.viewerProtocolPolicy = "https-only")
      ∧ ¬ jsTruthy o.sslCertificateArn then
    .error ⟨1, "Error: --ssl-certificate-arn is required when viewer protocol policy is redirect-to-https or https-only."⟩
  else if o.loggingEnabled ∧ ¬ jsTruthy o.loggingS3Bucket then
    .error ⟨1, "Error: --logging-s3-bucket is required when logging is enabled."⟩
  else if (o.geoRestriction = "blacklist" ∨ o.geoRestriction = "whitelist")
      ∧ ¬ jsTruthy o.geoRestrictionIds then
    .error ⟨1, "Error: --geo-restriction-ids is required when geo restriction type is blacklist or whitelist."⟩
  else .ok ()

/-- Geo restriction id list parsed from the comma-delimited option
(lines 86-90 of the source): split on commas, trim, upper-case. -/
def geoIds (o : Options) : List String :=
  if jsTruthy o.geoRestrictionIds then
    (jsSplit (jsStr o.geoRestrictionIds) ',').map fun id => jsToUpper (jsTrim id)
  else []

/-- Embedding of `generateVariablesTF` of generateCloudFrontTerraform.ts. -/
def variablesLines (o : Options) : List String :=
  ["variable \"distribution_name\" \x7b",
   "  description = \"Name of the CloudFront distribution.\"",
   "  type        = string",
   "  default     = \"" ++ jsStr o.distributionName ++ "\"",
   "\x7d",
   "",
   "variable \"origin_domain_name\" \x7b",
   "  description = \"Origin domain name (e.g., S3 bucket, ALB).\"",
   "  type        = string",
   "  default     = \"" ++ jsStr o.originDomainName ++ "\"",
   "\x7d",
   "",
   "variable \"origin_id\" \x7b",
   "  description = \"Origin identifier.\"",
   "  type        = string",
   "  default     = \"" ++ jsStr o.originId ++ "\"",
   "\x7d",
   "",
   "variable \"default_root_object\" \x7b",
   "  description = \"Default root object.\"",
   "  type        = string",
   "  default     = \"" ++ o.defaultRootObject ++ "\"",
   "\x7d",
   "",
   "variable \"enabled\" \x7b",
   "  description = \"Enable the CloudFront distribution.\"",
   "  type        = bool",
   "  default     = " ++ jsBoolStr o.enabled,
   "\x7d",
   "",
   "variable \"comment\" \x7b",
   "  description = \"Comment for the distribution.\"",
   "  type        = string",
   "  default     = \"" ++ jsOr o.comment "" ++ "\"",
   "\x7d",
   "",
   "variable \"price_class\" \x7b",
   "  description = \"Price class for the distribution.\"",
   "  type        = string",
   "  default     = \"" ++ o.priceClass ++ "\"",
   "\x7d",
   "",
   "variable \"viewer_protocol_policy\" \x7b",
   "  description = \"Viewer protocol policy.\"",
   "  type        = string",
   "  default     = \"" ++ o.viewerProtocolPolicy ++ "\"",
   "\x7d"]
  ++ (if jsTruthy o.sslCertificateArn then
      ["",
       "variable \"ssl_certificate_arn\" \x7b",
       "  description = \"SSL certificate ARN for HTTPS.\"",
       "  type        = string",
       "  default     = \"" ++ jsStr o.sslCertificateArn ++ "\"",
       "\x7d"] else [])
  ++ ["",
      "variable \"minimum_tls_version\" \x7b",
      "  description = \"Minimum TLS version.\"",
      "  type        = string",
      "  default     = \"" ++ o.minimumTlsVersion ++ "\"",
      "\x7d"]
  ++ (if o.loggingEnabled then
      ["",
       "variable \"logging_enabled\" \x7b",
       "  description = \"Enable access logging.\"",
       "  type        = bool",
       "  default     = true",
       "\x7d",
       "",
       "variable \"logging_s3_bucket\" \x7b",
       "  description = \"S3 bucket for CloudFront access logs.\"",
       "  type        = string",
       "  default     = \"" ++ jsStr o.loggingS3Bucket ++ "\"",
       "\x7d",
       "",
       "variable \"logging_prefix\" \x7b",
       "  description = \"S3 prefix for CloudFront access logs.\"",
       "  type        = string",
       "  default     = \"" ++ o.loggingPrefixOpt ++ "\"",
       "\x7d"]
      else
      ["",
       "variable \"logging_enabled\" \x7b",
       "  description = \"Enable access logging.\"",
       "  type        = bool",
       "  default     = false",
       "\x7d"])
  ++ ["",
      "variable \"geo_restriction\" \x7b",
      "  description = \"Geo restriction type (none, blacklist, whitelist).\"",
      "  type        = string",
      "  default     = \"" ++ o.geoRestriction ++ "\"",
      "\x7d"]
  ++ (if 0 < (geoIds o).length then
      ["",
       "variable \"geo_restriction_ids\" \x7b",
       "  description = \"List of country codes for geo restriction.\"",
       "  type        = list(string)",
       "  default     = [" ++
         String.intercalate ", " ((geoIds o).map fun id => "\"" ++ id ++ "\"") ++ "]",
       "\x7d"] else [])
  ++ (if o.preventDestroy then
      ["",
       "variable \"prevent_destroy\" \x7b",
       "  description = \"Prevent destruction of the CloudFront distribution.\"",
       "  type        = bool",
       "  default     = true",
       "\x7d"] else [])

/-- Embedding of `generateMainTF` of generateCloudFrontTerraform.ts.  Note
that the viewer_certificate block referencing var.ssl_certificate_arn is
emitted unconditionally. -/
def mainLines (o : Options) : List String :=
  ["",
   "resource \"aws_cloudfront_distribution\" \"distribution\" \x7b",
   "  origin \x7b",
   "    domain_name = var.origin_domain_name",
   "    origin_id   = var.origin_id",
   "",
   "    # S3 Origin Configuration (Uncomment if origin is S3)",
   "    # s3_origin_config \x7b",
   "    #   origin_access_identity = \"origin-access-identity/cloudfront/EXAMPLE\"",
   "    # \x7d",
   "",
   "    # Custom Origin Configuration (Uncomment if origin is custom)",
   "    # custom_origin_config \x7b",
   "    #   http_port              = 80",
   "    #   https_port             = 443",
   "    #   origin_protocol_policy = \"https-only\"",
   "    #   origin_ssl_protocols   = [\"TLSv1.2\"]",
   "    # \x7d",
   "  \x7d",
   "",
   "  enabled             = var.enabled",
   "  is_ipv6_enabled     = true",
   "  comment             = var.comment",
   "  default_root_object = var.default_root_object",
   "",
   "  aliases = []",
   "",
   "  default_cache_behavior \x7b",
   "    target_origin_id       = var.origin_id",
   "    viewer_protocol_policy = var.viewer_protocol_policy",
   "",
   "    allowed_methods = [\"GET\", \"HEAD\", \"OPTIONS\"],",
   "    cached_methods  = [\"GET\", \"HEAD\"],",
   "",
   "    forwarded_values \x7b",
   "      query_string = false",
   "      cookies \x7b",
   "        forward = \"none\"",
   "      \x7d",
   "    \x7d",
   "",
   "    # Minimum TTL for cached objects",
   "    min_ttl                = 0",
   "    default_ttl            = 3600",
   "    max_ttl                = 86400",
   "  \x7d",
   "",
   "  price_class = var.price_class",
   "",
   "  viewer_certificate \x7b",
   "    cloudfront_default_certificate = false",
   "    acm_certificate_arn            = var.ssl_certificate_arn",
   "    ssl_support_method             = \"sni-only\"",
   "    minimum_protocol_version       = var.minimum_tls_version",
   "  \x7d",
   "",
   "  restrictions \x7b",
   "    geo_restriction \x7b",
   "      restriction_type = var.geo_restriction"]
  ++ (if 0 < (geoIds o).length then
      ["      locations        = var.geo_restriction_ids"] else [])
  ++ ["    \x7d", "  \x7d"]
  ++ (if o.loggingEnabled then
      ["",
       "  logging_config \x7b",
       "    include_cookies = false",
       "    bucket          = var.logging_s3_bucket",
       "    prefix          = var.logging_prefix",
       "  \x7d"] else [])
  ++ (if o.preventDestroy then
      ["", "  lifecycle \x7b", "    prevent_destroy = var.prevent_destroy", "  \x7d"] else [])
  ++ ["\x7d"]

/-- Embedding of `generateOutputsTF` of generateCloudFrontTerraform.ts. -/
def outputsLines : List String :=
  ["output \"cloudfront_distribution_id\" \x7b",
   "  description = \"The ID of the CloudFront distribution.\"",
   "  value       = aws_cloudfront_distribution.distribution.id",
   "\x7d",
   "",
   "output \"cloudfront_distribution_domain_name\" \x7b",
   "  description = \"The domain name corresponding to the CloudFront distribution.\"",
   "  value       = aws_cloudfront_distribution.distribution.domain_name",
   "\x7d",
   "",
   "output \"cloudfront_distribution_arn\" \x7b",
   "  description = \"The ARN of the CloudFront distribution.\"",
   "  value       = aws_cloudfront_distribution.distribution.arn",
   "\x7d"]

/-- Whole-script pipeline of generateCloudFrontTerraform.ts. -/
def generate (o : Options) :
    Except ProcessExit (List String × List String × List String) :=
  match resolve o with
  | .error e => .error e
  | .ok () => .ok (variablesLines o, mainLines o, outputsLines)

end CloudFront

namespace EC2

/-- Option record of generateEC2Terraform.ts: four boolean flags. -/
structure Options where
  docker : Bool := false
  security : Bool := false
  vpc : Bool := false
  loadBalancer : Bool := false
deriving DecidableEq

/-- Embedding of `generateMainTF` of generateEC2Terraform.ts (the
definition artifact).  Ternary expressions pushing '' contribute empty
lines, exactly as in the source. -/
def mainLines (o : Options) : List String :=
  (if o.vpc then
    ["",
     "# VPC",
     "resource \"aws_vpc\" \"main\" \x7b",
     "  cidr_block = var.vpc_cidr",
     "  tags = \x7b",
     "    Name = \"example-vpc\"",
     "  \x7d",
     "",
     "  lifecycle \x7b",
     "    prevent_destroy = true",
     "  \x7d",
     "\x7d",
     "",
     "# Subnet",
     "resource \"aws_subnet\" \"main\" \x7b",
     "  vpc_id                  = aws_vpc.main.id",
     "  cidr_block              = var.subnet_cidr",
     "  availability_zone       = var.availability_zone",
     "  map_public_ip_on_launch = true",
     "  tags = \x7b",
     "    Name = \"example-subnet\"",
     "  \x7d",
     "",
     "  depends_on = [aws_vpc.main]",
     "\x7d",
     "",
     "# Internet Gateway",
     "resource \"aws_internet_gateway\" \"igw\" \x7b",
     "  vpc_id = aws_vpc.main.id",
     "  tags = \x7b",
     "    Name = \"example-igw\"",
     "  \x7d",
     "",
     "  depends_on = [aws_vpc.main]",
     "\x7d",
     "",
     "# Route Table",
     "resource \"aws_route_table\" \"rt\" \x7b",
     "  vpc_id = aws_vpc.main.id",
     "  route \x7b",
     "    cidr_block = \"0.0.0.0/0\"",
     "    gateway_id = aws_internet_gateway.igw.id",
     "  \x7d",
     "  tags = \x7b",
     "    Name = \"example-route-table\"",
     "  \x7d",
     "",
     "  depends_on = [aws_internet_gateway.igw]",
     "\x7d",
     "",
     "# Route Table Association",
     "resource \"aws_route_table_association\" \"rta\" \x7b",
     "  subnet_id      = aws_subnet.main.id",
     "  route_table_id = aws_route_table.rt.id",
     "",
     "  depends_on = [aws_route_table.rt, aws_subnet.main]",
     "\x7d"] else [])
  ++ (if o.security then
    ["",
     "# Security Group",
     "resource \"aws_security_group\" \"sg\" \x7b",
     "  name        = \"example-sg\"",
     "  description = \"Security group for EC2 instance\"",
     (if o.vpc then "  vpc_id      = aws_vpc.main.id" else ""),
     "  ingress \x7b",
     "    description = \"Allow SSH\"",
     "    from_port   = 22",
     "    to_port     = 22",
     "    protocol    = \"tcp\"",
     "    cidr_blocks = [var.allowed_ssh_cidr]",
     "  \x7d",
     "  ingress \x7b",
     "    description = \"Allow HTTP\"",
     "    from_port   = 80",
     "    to_port     = 80",
     "    protocol    = \"tcp\"",
     "    cidr_blocks = [var.allowed_http_cidr]",
     "  \x7d",
     "  egress \x7b",
     "    from_port   = 0",
     "    to_port     = 0",
     "    protocol    = \"-1\"",
     "    cidr_blocks = [\"0.0.0.0/0\"]",
     "  \x7d",
     "  tags = \x7b",
     "    Name = \"example-sg\"",
     "  \x7d",
     "",
     "  lifecycle \x7b",
     "    create_before_destroy = true",
     "  \x7d",
     "\x7d"] else [])
  ++ ["",
      "# EC2 Instance",
      "resource \"aws_instance\" \"ec2\" \x7b",
      "  count                 = var.instance_count",
      "  ami                   = var.ami_id",
      "  instance_type         = var.instance_type",
      (if o.vpc then "  subnet_id            = aws_subnet.main.id" else ""),
      (if o.security then "  vpc_security_group_ids = [aws_security_group.sg.id]" else ""),
      "  key_name              = var.key_name",
      "",
      "  lifecycle \x7b",
      "    create_before_destroy = true",
      "  \x7d",
      "",
      (if o.vpc then "  depends_on = [aws_subnet.main, aws_security_group.sg]"
       else "depends_on = [aws_security_group.sg]")]
  ++ (if o.docker then
      ["  user_data = <<-EOF",
       "              #!/bin/bash",
       "              yum update -y",
       "              amazon-linux-extras install docker -y",
       "              service docker start",
       "              usermod -a -G docker ec2-user",
       "              docker run -d --name $\x7bvar.docker_container_name\x7d -p 80:80 $\x7bvar.docker_image\x7d",
       "              EOF"] else [])
  ++ ["  tags = \x7b",
      "    Name = \"example-instance\"",
      "  \x7d",
      "\x7d"]
  ++ (if o.loadBalancer then
      ["",
       "# Load Balancer",
       "resource \"aws_lb\" \"lb\" \x7b",
       "  name               = var.lb_name",
       "  load_balancer_type = \"application\"",
       (if o.vpc then "  subnets            = [aws_subnet.main.id]" else ""),
       (if o.security then "  security_groups    = [aws_security_group.lb_sg.id]" else ""),
       "  tags = \x7b",
       "    Name = var.lb_name",
       "  \x7d",
       "",
       "  lifecycle \x7b",
       "    prevent_destroy = true",
       "  \x7d",
       "\x7d",
       "",
       "# Target Group",
       "resource \"aws_lb_target_group\" \"tg\" \x7b",
       "  name     = \"$\x7bvar.lb_name\x7d-tg\"",
       "  port     = var.lb_port",
       "  protocol = \"HTTP\"",
       (if o.vpc then "  vpc_id   = aws_vpc.main.id" else ""),
       "",
       "  depends_on = [aws_lb.lb]",
       "\x7d",
       "",
       "# Listener",
       "resource \"aws_lb_listener\" \"listener\" \x7b",
       "  load_balancer_arn = aws_lb.lb.arn",
       "  port              = var.lb_port",
       "  protocol          = \"HTTP\"",
       "  default_action \x7b",
       "    type             = \"forward\"",
       "    target_group_arn = aws_lb_target_group.tg.arn",
       "  \x7d",
       "",
       "  depends_on = [aws_lb_target_group.tg]",
       "\x7d",
       "",
       "# Register Targets",
       "resource \"aws_lb_target_group_attachment\" \"attachment\" \x7b",
       "  count            = var.instance_count",
       "  target_group_arn = aws_lb_target_group.tg.arn",
       "  target_id        = aws_instance.ec2[count.index].id",
       "  port             = var.lb_port",
       "",
       "  depends_on = [aws_lb_listener.listener, aws_instance.ec2]",
       "\x7d"] else [])

end EC2

namespace IAM

/-- Option record of generateIAMTerraform.ts: every option is optional and
takes a string value. -/
structure Options where
  role : Option String := none
  policy : Option String := none
  policyJson : Option String := none
  user : Option String := none
  attachPolicyRole : Option String := none
  attachPolicyUser : Option String := none
deriving DecidableEq

/-- Embedding of `generateVariablesTF` of generateIAMTerraform.ts. -/
def variablesLines (o : Options) : List String :=
  (if jsTruthy o.role then
    ["variable \"role_name\" \x7b",
     "  description = \"Name of the IAM role to create.\"",
     "  type        = string",
     "  default     = \"" ++ jsStr o.role ++ "\"",
     "\x7d",
     ""] else [])
  ++ (if jsTruthy o.policy then
    ["variable \"policy_name\" \x7b",
     "  description = \"Name of the IAM policy to create.\"",
     "  type        = string",
     "  default     = \"" ++ jsStr o.policy ++ "\"",
     "\x7d",
     "",
     "variable \"policy_document\" \x7b",
     "  description = \"IAM Policy document JSON for the policy.\"",
     "  type        = string",
     "  default     = file(\"" ++ jsStr o.policyJson ++ "\")",
     "\x7d"] else [])
  ++ (if jsTruthy o.user then
    ["variable \"user_name\" \x7b",
     "  description = \"Name of the IAM user to create.\"",
     "  type        = string",
     "  default     = \"" ++ jsStr o.user ++ "\"",
     "\x7d"] else [])

/-- Embedding of `generateMainTF` of generateIAMTerraform.ts.  Attachment
blocks (lines 178-200) are emitted only when the attach flag and both of
the involved declarations are present. -/
def mainLines (o : Options) : List String :=
  (if jsTruthy o.role then
    ["resource \"aws_iam_role\" \"role\" \x7b",
     "  name               = var.role_name",
     "  assume_role_policy = <<EOF",
     "  \x7b",
     "    \"Version\": \"2012-10-17\",",
     "    \"Statement\": [",
     "      \x7b",
     "        \"Action\": \"sts:AssumeRole\",",
     "        \"Principal\": \x7b \"Service\": \"ec2.amazonaws.com\" \x7d,",
     "        \"Effect\": \"Allow\"",
     "      \x7d",
     "    ]",
     "  \x7d",
     "  EOF",
     "\x7d"] else [])
  ++ (if jsTruthy o.policy then
    ["",
     "resource \"aws_iam_policy\" \"policy\" \x7b",
     "  name        = var.policy_name",
     "  policy      = var.policy_document",
     "\x7d"] else [])
  ++ (if jsTruthy o.user then
    ["",
     "resource \"aws_iam_user\" \"user\" \x7b",
     "  name = var.user_name",
     "\x7d"] else [])
  ++ (if jsTruthy o.attachPolicyRole ∧ jsTruthy o.policy ∧ jsTruthy o.role then
    ["",
     "resource \"aws_iam_role_policy_attachment\" \"role_policy_attachment\" \x7b",
     "  role       = aws_iam_role.role.name",
     "  policy_arn = aws_iam_policy.policy.arn",
     "",
     "  depends_on = [aws_iam_role.role, aws_iam_policy.policy]",
     "\x7d"] else [])
  ++ (if jsTruthy o.attachPolicyUser ∧ jsTruthy o.policy ∧ jsTruthy o.user then
    ["",
     "resource \"aws_iam_user_policy_attachment\" \"user_policy_attachment\" \x7b",
     "  user       = aws_iam_user.user.name",
     "  policy_arn = aws_iam_policy.policy.arn",
     "",
     "  depends_on = [aws_iam_user.user, aws_iam_policy.policy]",
     "\x7d"] else [])

/-- Embedding of `generateOutputsTF` of generateIAMTerraform.ts. -/
def outputsLines (o : Options) : List String :=
  (if jsTruthy o.role then
    ["output \"role_arn\" \x7b",
     "  description = \"The ARN of the IAM role.\"",
     "  value       = aws_iam_role.role.arn",
     "\x7d",
     ""] else [])
  ++ (if jsTruthy o.policy then
    ["output \"policy_arn\" \x7b",
     "  description = \"The ARN of the IAM policy.\"",
     "  value       = aws_iam_policy.policy.arn",
     "\x7d",
     ""] else [])
  ++ (if jsTruthy o.user then
    ["output \"user_arn\" \x7b",
     "  description = \"The ARN of the IAM user.\"",
     "  value       = aws_iam_user.user.arn",
     "\x7d",
     ""] else [])

end IAM

namespace Watcher

/-- Model of `path.basename(filePath, '.tf')`: the directory part of staged
names is not modelled (names are unique basenames), so this strips a
trailing ".tf" when present. -/
def stripExt (s : String) : String :=
  let cs := s.data
  if 3 ≤ cs.length ∧ cs.drop (cs.length - 3) = ['.', 't', 'f'] then
    String.mk (cs.take (cs.length - 3)) else s

/-- Group prefix of a staged file: the part of the basename before the
first underscore (`parts[0]` in `regenerateTargetFiles`). -/
def prefixOf (s : String) : String :=
  (jsSplit (stripExt s) '_').headD ""

/-- Trailing part of the basename after the last underscore
(`aParts[aParts.length - 1]`). -/
def trailingPart (s : String) : String :=
  (jsSplit (stripExt s) '_').getLastD ""

/-- Sort key of a staged file: `parseInt(lastPart, 10) || 0` — the trailing
number, with unparseable trailing parts sorting as zero. -/
def sortKey (s : String) : Int :=
  (jsParseInt (trailingPart s)).getD 0

/-- Model of the JavaScript stable `Array.prototype.sort` with comparator
`aNum - bNum`: a stable sort ascending by `sortKey`. -/
def sortFiles (files : List String) : List String :=
  List.insertionSort (fun a b => sortKey a ≤ sortKey b) files

/-- Files of one group, in processed-set iteration order (the grouping loop
pushes each file onto its prefix's bucket in iteration order). -/
def groupFiles (files : List String) (p : String) : List String :=
  files.filter fun f => prefixOf f == p

/-- Group prefixes in first-insertion order (`Object.keys(groupedFiles)`). -/
def groupKeys (files : List String) : List String :=
  files.foldl (fun acc f => if prefixOf f ∈ acc then acc else acc ++ [prefixOf f]) []

/-- Content of a staged file (reading by name from the staged set). -/
def lookupData (staged : List (String × String)) (f : String) : String :=
  ((staged.find? fun e => e.1 == f).map fun e => e.2).getD ""

/-- Merged content of one group: the destination is cleared (starts from
the empty string) and each sorted entry is appended behind a separator
comment naming the source entry. -/
def mergedContent (staged : List (String × String)) (p : String) : String :=
  (sortFiles (groupFiles (staged.map fun e => e.1) p)).foldl
    (fun acc f =>
      acc ++ "\n# ----- Content from " ++ f ++ " -----\n" ++ lookupData staged f ++ "\n")
    ""

/-- The destination writes one `regenerateTargetFiles` pass performs:
for each group prefix, the file `{prefix}.tf` is rewritten in full to the
group's merged content. -/
def assembleWrites (staged : List (String × String)) : List (String × String) :=
  (groupKeys (staged.map fun e => e.1)).map fun p => (p ++ ".tf", mergedContent staged p)

/-- Output folder state: file name to content. -/
def OutFS : Type := String → Option String

/-- Writing one file into the output folder. -/
def fsWrite (out : OutFS) (name content : String) : OutFS :=
  fun k => if k = name then some content else out k

/-- Applying a sequence of writes in order. -/
def applyWrites (ws : List (String × String)) (out : OutFS) : OutFS :=
  ws.foldl (fun f w => fsWrite f w.1 w.2) out

/-- The last write a sequence performs on a key, if any. -/
def lastWrite : List (String × String) → String → Option String
  | [], _ => none
  | w :: ws, k =>
    match lastWrite ws k with
    | some v => some v
    | none => if k = w.1 then some w.2 else none

/-- One full `regenerateTargetFiles` pass over the output folder. -/
def runAssemble (staged : List (String × String)) (out : OutFS) : OutFS :=
  applyWrites (assembleWrites staged) out

end Watcher

/-- Concrete DynamoDB option set with just the mandatory options. -/
def dynamoOk : Dynamo.Options :=
  { tableName := some "users", hashKey := some "id", hashKeyType := some "S" }

/-- DynamoDB options with PROVISIONED billing but no capacities supplied. -/
def dynamoProvisionedNoCap : Dynamo.Options :=
  { tableName := some "users", hashKey := some "id", hashKeyType := some "S",
    billingMode := "PROVISIONED" }

/-- DynamoDB options whose attribute and GSI records have too few
colon-delimited parts. -/
def dynamoMalformedRecords : Dynamo.Options :=
  { tableName := some "users", hashKey := some "id", hashKeyType := some "S",
    attrs := ["id"], gsi := ["g"] }

/-- DynamoDB options with PROVISIONED billing and a 3-part GSI record that
omits both capacity parts. -/
def dynamoProvisionedGsi : Dynamo.Options :=
  { tableName := some "users", hashKey := some "id", hashKeyType := some "S",
    billingMode := "PROVISIONED", readCapacity := some 10, writeCapacity := some 10,
    gsi := ["byDate:date:S"] }

/-- Concrete CloudFront option set passing validation (certificate given). -/
def cfOk : CloudFront.Options :=
  { distributionName := some "dist", originDomainName := some "example.com",
    originId := some "origin1", sslCertificateArn := some "arn:aws:acm:cert" }

/-- CloudFront options with viewer protocol policy allow-all and no
certificate: validation passes, yet main.tf references
var.ssl_certificate_arn which variables.tf does not declare. -/
def cfAllowAll : CloudFront.Options :=
  { distributionName := some "dist", originDomainName := some "example.com",
    originId := some "origin1", viewerProtocolPolicy := "allow-all" }

/-- Concrete Route53 option set with only the hosted zone. -/
def r53Ok : Route53.Options := { hostedZone := some "example.com" }

/-- Route53 options with one well-formed DNS record. -/
def r53Records : Route53.Options :=
  { hostedZone := some "example.com", record := ["a:www:1.2.3.4:300"] }

/-- IAM options with role, policy and the role-attachment flag set. -/
def iamRoleAttach : IAM.Options :=
  { role := some "app-role", policy := some "app-policy",
    policyJson := some "policy.json", attachPolicyRole := some "app-role" }

/-- Route53 options with a malformed DNS record. -/
def r53Bad : Route53.Options :=
  { hostedZone := some "example.com", record := ["bad"] }

/-- The process exit `parseDNSRecords` performs on a given bad record:
the too-few-parts message when the record has fewer than 4 colon-delimited
parts, otherwise the invalid-TTL message for its fourth part. -/
def Route53.dnsErrFor (r : String) : ProcessExit :=
  if (jsSplit r ':').length < 4 then ⟨1, Route53.dnsFormatMsg r⟩
  else ⟨1, Route53.dnsTtlMsg ((jsSplit r ':').getD 3 "") r⟩

namespace Watcher

/-- Pointwise evaluation of a write sequence: the last write on a key wins,
otherwise the previous state shows through. -/
theorem applyWrites_apply (ws : List (String × String)) (out : OutFS) (k : String) :
    applyWrites ws out k =
      match lastWrite ws k with
      | some v => some v
      | none => out k := by
  induction ws generalizing out with
  | nil => rfl
  | cons w ws ih =>
    show applyWrites ws (fsWrite out w.1 w.2) k = _
    rw [ih]
    cases h : lastWrite ws k with
    | some v => simp [lastWrite, h]
    | none =>
      simp only [lastWrite, h]
      by_cases hk : k = w.1 <;> simp [fsWrite, hk]

end Watcher

/-- C6: the assembler fully rewrites each group's destination file from the
staged inputs alone, so a second pass over the unchanged staging set leaves
the output folder byte-identical. -/
theorem c6_assemble_idempotent (staged : List (String × String)) (out : Watcher.OutFS) :
    Watcher.runAssemble staged (Watcher.runAssemble staged out) =
      Watcher.runAssemble staged out := by
  funext k
  show Watcher.applyWrites _ (Watcher.applyWrites _ out) k = Watcher.applyWrites _ out k
  rw [Watcher.applyWrites_apply, Watcher.applyWrites_apply]
  cases h : Watcher.lastWrite (Watcher.assembleWrites staged) k <;> simp

/-- C5: staged entries of one group are concatenated in ascending order of
the trailing numeric suffix (numeric, not lexical: 1, 2, 10), entries
without a parseable trailing number sort as zero, and the sort is a
permutation sorted by that key. -/
theorem c5_numeric_suffix_ordering :
    (Watcher.sortFiles ["main_ec2_2.tf", "main_ec2_10.tf", "main_ec2_1.tf"] =
      ["main_ec2_1.tf", "main_ec2_2.tf", "main_ec2_10.tf"]) ∧
    (∀ files : List String,
      List.Sorted (fun a b => Watcher.sortKey a ≤ Watcher.sortKey b)
        (Watcher.sortFiles files) ∧
      List.Perm (Watcher.sortFiles files) files) ∧
    (∀ s : String, jsParseInt (Watcher.trailingPart s) = none → Watcher.sortKey s = 0) := by
  refine ⟨by decide, fun files => ⟨?_, List.perm_insertionSort _ _⟩, fun s h => ?_⟩
  · haveI : IsTotal String (fun a b => Watcher.sortKey a ≤ Watcher.sortKey b) :=
      ⟨fun a b => le_total _ _⟩
    haveI : IsTrans String (fun a b => Watcher.sortKey a ≤ Watcher.sortKey b) :=
      ⟨fun _ _ _ hab hbc => le_trans hab hbc⟩
    exact List.sorted_insertionSort _ _
  · unfold Watcher.sortKey
    rw [h]
    rfl

/-- Witness for C5: a staged name with no parseable trailing number has
sort key zero. -/
theorem c5_witness :
    jsParseInt (Watcher.trailingPart "main_ec2_extra.tf") = none ∧
    Watcher.sortKey "main_ec2_extra.tf" = 0 :=
  ⟨by decide, c5_numeric_suffix_ordering.2.2 "main_ec2_extra.tf" (by decide)⟩

/-- C1 is a code bug: with all EC2 flags off, main.tf still emits a
depends_on naming aws_security_group.sg though no such resource block is
emitted; and with CloudFront viewer protocol policy allow-all and no
certificate, validation passes and main.tf references
var.ssl_certificate_arn though variables.tf declares no such variable. -/
theorem c1_dangling_reference_bug :
    ("depends_on = [aws_security_group.sg]" ∈ EC2.mainLines {}) ∧
    ("resource \"aws_security_group\" \"sg\" \x7b" ∉ EC2.mainLines {}) ∧
    (CloudFront.resolve cfAllowAll = .ok ()) ∧
    ("    acm_certificate_arn            = var.ssl_certificate_arn" ∈
      CloudFront.mainLines cfAllowAll) ∧
    ("variable \"ssl_certificate_arn\" \x7b" ∉ CloudFront.variablesLines cfAllowAll) :=
  ⟨by decide, by decide, rfl, by decide, by decide⟩

set_option maxHeartbeats 2000000 in
set_option maxRecDepth 8192 in
/-- C7: the identity generator emits exactly one role-policy attachment
block, depending on both the role and the policy declarations, exactly when
policy, role and the attach flag are all present; with the role absent no
role attachment block appears even if the flag is set; and the analogous
rule holds for user attachment. -/
theorem c7_iam_attachment_gating (o : IAM.Options) :
    (jsTruthy o.policy → jsTruthy o.role → jsTruthy o.attachPolicyRole →
      (IAM.mainLines o).count
        "resource \"aws_iam_role_policy_attachment\" \"role_policy_attachment\" \x7b" = 1 ∧
      "  depends_on = [aws_iam_role.role, aws_iam_policy.policy]" ∈ IAM.mainLines o) ∧
    (¬ jsTruthy o.role →
      "resource \"aws_iam_role_policy_attachment\" \"role_policy_attachment\" \x7b" ∉
        IAM.mainLines o) ∧
    (jsTruthy o.policy → jsTruthy o.user → jsTruthy o.attachPolicyUser →
      (IAM.mainLines o).count
        "resource \"aws_iam_user_policy_attachment\" \"user_policy_attachment\" \x7b" = 1 ∧
      "  depends_on = [aws_iam_user.user, aws_iam_policy.policy]" ∈ IAM.mainLines o) ∧
    (¬ jsTruthy o.user →
      "resource \"aws_iam_user_policy_attachment\" \"user_policy_attachment\" \x7b" ∉
        IAM.mainLines o) := by
  cases hr : jsTruthy o.role <;> cases hp : jsTruthy o.policy <;>
    cases hu : jsTruthy o.user <;> cases har : jsTruthy o.attachPolicyRole <;>
      cases hau : jsTruthy o.attachPolicyUser <;>
        simp [IAM.mainLines, hr, hp, hu, har, hau]

/-- Witness for C7: with role, policy and the attach flag present, exactly
one role attachment block with its double dependency is emitted. -/
theorem c7_witness :
    (IAM.mainLines iamRoleAttach).count
      "resource \"aws_iam_role_policy_attachment\" \"role_policy_attachment\" \x7b" = 1 ∧
    "  depends_on = [aws_iam_role.role, aws_iam_policy.policy]" ∈
      IAM.mainLines iamRoleAttach :=
  (c7_iam_attachment_gating iamRoleAttach).1 (by decide) (by decide) (by decide)

/-- C2: for the key-value table, content-distribution and DNS-zone
generators, option resolution succeeds exactly when every mandatory field
and every conditionally-mandatory field is present, and a missing mandatory
field aborts with an error naming exactly that flag. -/
theorem c2_resolve_iff (d : Dynamo.Options) (c : CloudFront.Options) (r : Route53.Options) :
    (Dynamo.resolve d = .ok () ↔
      (d.tableName ≠ none ∧ d.hashKey ≠ none ∧ d.hashKeyType ≠ none ∧
       (d.billingMode = "PROVISIONED" → d.readCapacity ≠ none ∧ d.writeCapacity ≠ none) ∧
       (jsTruthy d.rangeKey → jsTruthy d.rangeKeyType) ∧
       (jsTruthy d.streamViewType → d.streamEnabled))) ∧
    (CloudFront.resolve c = .ok () ↔
      (c.distributionName ≠ none ∧ c.originDomainName ≠ none ∧ c.originId ≠ none ∧
       ((c.viewerProtocolPolicy = "redirect-to-https" ∨ c.viewerProtocolPolicy = "https-only") →
         jsTruthy c.sslCertificateArn) ∧
       (c.loggingEnabled → jsTruthy c.loggingS3Bucket) ∧
       ((c.geoRestriction = "blacklist" ∨ c.geoRestriction = "whitelist") →
         jsTruthy c.geoRestrictionIds))) ∧
    (Route53.resolve r = .ok () ↔
      (r.hostedZone ≠ none ∧ (jsToUpper r.hostedZoneType = "PRIVATE" → jsTruthy r.vpcId))) ∧
    (d.tableName = none → Dynamo.resolve d = .error (requiredErr "--table-name <name>")) ∧
    (d.tableName ≠ none → d.hashKey = none →
      Dynamo.resolve d = .error (requiredErr "--hash-key <attribute>")) ∧
    (d.tableName ≠ none → d.hashKey ≠ none → d.hashKeyType = none →
      Dynamo.resolve d = .error (requiredErr "--hash-key-type <type>")) ∧
    (c.distributionName = none →
      CloudFront.resolve c = .error (requiredErr "--distribution-name <name>")) ∧
    (c.distributionName ≠ none → c.originDomainName = none →
      CloudFront.resolve c = .error (requiredErr "--origin-domain-name <domain>")) ∧
    (c.distributionName ≠ none → c.originDomainName ≠ none → c.originId = none →
      CloudFront.resolve c = .error (requiredErr "--origin-id <id>")) ∧
    (r.hostedZone = none → Route53.resolve r = .error (requiredErr "--hosted-zone <name>")) := by
  refine ⟨?_, ?_, ?_, ?_, ?_, ?_, ?_, ?_, ?_, ?_⟩
  · unfold Dynamo.resolve; split_ifs <;> simp_all <;> tauto
  · unfold CloudFront.resolve; split_ifs <;> simp_all <;> tauto
  · unfold Route53.resolve; split_ifs <;> simp_all <;> tauto
  · intro h; unfold Dynamo.resolve; simp [h]
  · intro h1 h2; unfold Dynamo.resolve; simp [h1, h2]
  · intro h1 h2 h3; unfold Dynamo.resolve; simp [h1, h2, h3]
  · intro h; unfold CloudFront.resolve; simp [h]
  · intro h1 h2; unfold CloudFront.resolve; simp [h1, h2]
  · intro h1 h2 h3; unfold CloudFront.resolve; simp [h1, h2, h3]
  · intro h; unfold Route53.resolve; simp [h]

/-- Witness for C2: a complete option set resolves for each generator, and
omitting the table name aborts with the message naming --table-name. -/
theorem c2_witness :
    Dynamo.resolve dynamoOk = .ok () ∧
    CloudFront.resolve cfOk = .ok () ∧
    Route53.resolve r53Ok = .ok () ∧
    Dynamo.resolve { dynamoOk with tableName := none } =
      .error (requiredErr "--table-name <name>") := by
  obtain ⟨hd, hc, hr, _⟩ := c2_resolve_iff dynamoOk cfOk r53Ok
  obtain ⟨_, _, _, h4, _⟩ := c2_resolve_iff { dynamoOk with tableName := none } cfOk r53Ok
  exact ⟨hd.mpr (by decide), hc.mpr (by decide), hr.mpr (by decide), h4 rfl⟩

/-- Counterexample for C3: the key-value table generator performs no
minimum-part check on attribute or GSI records.  With the one-part records
"id" and "g" generation succeeds and the malformed records are rendered
into the declarations artifact, the missing parts appearing as the text
"undefined". -/
theorem c3_counterexample :
    (jsSplit "id" ':').length = 1 ∧ (jsSplit "g" ':').length = 1 ∧
    Dynamo.generate dynamoMalformedRecords =
      .ok (Dynamo.variablesLines dynamoMalformedRecords,
        Dynamo.mainLines dynamoMalformedRecords, Dynamo.outputsLines) ∧
    "    \x7b name = \"id\", type = \"undefined\" \x7d," ∈
      Dynamo.variablesLines dynamoMalformedRecords ∧
    "    \x7b name = \"g\", hash_key = \"undefined\", hash_key_type = \"undefined\" \x7d," ∈
      Dynamo.variablesLines dynamoMalformedRecords :=
  ⟨by decide, by decide, rfl, by decide, by decide⟩

/-- C3 amended: the DynamoDB generator never rejects a delimited record for
having too few parts — generation succeeds whenever option validation does,
every attribute record is rendered as-is into the declarations artifact,
and a colon-free record renders its missing type part as "undefined". -/
theorem c3_amended_no_record_validation (o : Dynamo.Options) (a : String)
    (hres : Dynamo.resolve o = .ok ()) (ha : a ∈ o.attrs) :
    Dynamo.generate o =
      .ok (Dynamo.variablesLines o, Dynamo.mainLines o, Dynamo.outputsLines) ∧
    Dynamo.attrVarLine a ∈ Dynamo.variablesLines o ∧
    Dynamo.attrVarLine "id" = "    \x7b name = \"id\", type = \"undefined\" \x7d," := by
  refine ⟨?_, ?_, by decide⟩
  · unfold Dynamo.generate; rw [hres]
  · have hlen : 0 < o.attrs.length := List.length_pos.mpr (List.ne_nil_of_mem ha)
    have hx : Dynamo.attrVarLine a ∈ o.attrs.map Dynamo.attrVarLine :=
      List.mem_map_of_mem _ ha
    simp only [Dynamo.variablesLines, hlen, if_true, List.mem_append]
    tauto

/-- Witness for C3's amended statement at the concrete malformed records. -/
theorem c3_witness :
    Dynamo.generate dynamoMalformedRecords =
      .ok (Dynamo.variablesLines dynamoMalformedRecords,
        Dynamo.mainLines dynamoMalformedRecords, Dynamo.outputsLines) ∧
    Dynamo.attrVarLine "id" ∈ Dynamo.variablesLines dynamoMalformedRecords ∧
    Dynamo.attrVarLine "id" = "    \x7b name = \"id\", type = \"undefined\" \x7d," :=
  c3_amended_no_record_validation dynamoMalformedRecords "id" rfl (by decide)

/-- Counterexample for C4: an invalid option set does not produce a
structured failure value for a caller — the generator prints one message
and terminates the process with exit code 1 (modelled by `ProcessExit`). -/
theorem c4_counterexample :
    Dynamo.resolve dynamoProvisionedNoCap =
      .error ⟨1, "Error: --read-capacity and --write-capacity are required when billing mode is PROVISIONED."⟩ :=
  rfl

/-- Auxiliary: every parse failure of the DNS record parser is a process
exit with code 1. -/
theorem r53_parse_exit_code_one :
    ∀ (rs : List String) (e : ProcessExit),
      Route53.parseDNSRecords rs = .error e → e.exitCode = 1 := by
  intro rs
  induction rs with
  | nil => intro e he; simp [Route53.parseDNSRecords] at he
  | cons r rs ih =>
    intro e he
    simp only [Route53.parseDNSRecords] at he
    by_cases hlen : (jsSplit r ':').length < 4
    · rw [if_pos hlen] at he
      injection he with h
      rw [← h]
    · rw [if_neg hlen] at he
      cases httl : jsParseInt ((jsSplit r ':').getD 3 "") with
      | none =>
        simp only [httl] at he
        injection he with h
        rw [← h]
      | some t =>
        simp only [httl] at he
        cases hrec : Route53.parseDNSRecords rs with
        | error e₂ =>
          simp only [hrec] at he
          injection he with h
          rw [← h]; exact ih e₂ hrec
        | ok recs =>
          simp only [hrec] at he
          exact Except.noConfusion he

/-- C4 amended: for every invalid option set the generators do not return a
structured failure value — validation and record parsing print an error
message and terminate the process with exit code 1. -/
theorem c4_amended_process_exit_one (d : Dynamo.Options) (c : CloudFront.Options)
    (r : Route53.Options) (rs : List String) :
    (∀ e, Dynamo.resolve d = .error e → e.exitCode = 1) ∧
    (∀ e, CloudFront.resolve c = .error e → e.exitCode = 1) ∧
    (∀ e, Route53.resolve r = .error e → e.exitCode = 1) ∧
    (∀ e, Route53.parseDNSRecords rs = .error e → e.exitCode = 1) := by
  refine ⟨?_, ?_, ?_, fun e he => r53_parse_exit_code_one rs e he⟩
  · intro e he; unfold Dynamo.resolve at he
    split_ifs at he <;> simp_all [requiredErr] <;> rw [← he] <;> rfl
  · intro e he; unfold CloudFront.resolve at he
    split_ifs at he <;> simp_all [requiredErr] <;> rw [← he] <;> rfl
  · intro e he; unfold Route53.resolve at he
    split_ifs at he <;> simp_all [requiredErr] <;> rw [← he] <;> rfl

/-- Witness for C4's amended statement: the PROVISIONED-without-capacity
failure exits with code 1. -/
theorem c4_witness :
    (⟨1, "Error: --read-capacity and --write-capacity are required when billing mode is PROVISIONED."⟩ :
      ProcessExit).exitCode = 1 :=
  (c4_amended_process_exit_one dynamoProvisionedNoCap cfOk r53Ok []).1 _ rfl

/-- Auxiliary: DNS record parsing succeeds exactly when every raw record is
well-formed. -/
theorem r53_parse_ok_iff (rs : List String) :
    (Route53.parseDNSRecords rs).isOk = true ↔ ∀ x ∈ rs, Route53.dnsWellFormed x := by
  induction rs with
  | nil => simp [Route53.parseDNSRecords, Except.isOk, Except.toBool]
  | cons r rs ih =>
    simp only [Route53.parseDNSRecords]
    by_cases hlen : (jsSplit r ':').length < 4
    · rw [if_pos hlen]
      constructor
      · intro h; exact absurd h (by simp [Except.isOk, Except.toBool])
      · intro hall; exfalso
        have := (hall r (List.mem_cons_self r rs)).1
        omega
    · rw [if_neg hlen]
      cases httl : jsParseInt ((jsSplit r ':').getD 3 "") with
      | none =>
        simp only [httl]
        constructor
        · intro h; exact absurd h (by simp [Except.isOk, Except.toBool])
        · intro hall; exact absurd httl (hall r (List.mem_cons_self r rs)).2
      | some t =>
        simp only [httl]
        have hw : Route53.dnsWellFormed r := ⟨by omega, by rw [httl]; simp⟩
        cases hrec : Route53.parseDNSRecords rs with
        | error e =>
          simp only [hrec]
          constructor
          · intro h; exact absurd h (by simp [Except.isOk, Except.toBool])
          · intro hall; exfalso
            have hok : (Route53.parseDNSRecords rs).isOk = true :=
              ih.mpr fun x hx => hall x (List.mem_cons_of_mem r hx)
            rw [hrec] at hok
            exact absurd hok (by simp [Except.isOk, Except.toBool])
        | ok recs =>
          simp only [hrec]
          constructor
          · intro _ x hx
            rcases List.mem_cons.mp hx with hx | hx
            · rw [hx]; exact hw
            · exact ih.mp (by rw [hrec]; rfl) x hx
          · intro _
            simp [Except.isOk, Except.toBool]

/-- Auxiliary: the first ill-formed record in the list aborts parsing with
exactly its own error message. -/
theorem r53_parse_prefix_fail (pre : List String) (r : String) (rest : List String) :
    (∀ p ∈ pre, Route53.dnsWellFormed p) → ¬ Route53.dnsWellFormed r →
      Route53.parseDNSRecords (pre ++ r :: rest) = .error (Route53.dnsErrFor r) := by
  induction pre with
  | nil =>
    intro _ hr
    simp only [List.nil_append, Route53.parseDNSRecords]
    by_cases hlen : (jsSplit r ':').length < 4
    · rw [if_pos hlen]
      simp [Route53.dnsErrFor, hlen]
    · rw [if_neg hlen]
      cases httl : jsParseInt ((jsSplit r ':').getD 3 "") with
      | none =>
        simp only [httl]
        simp [Route53.dnsErrFor, hlen]
      | some t => exact absurd ⟨by omega, by rw [httl]; simp⟩ hr
  | cons p pre ih =>
    intro hpre hr
    have hp := hpre p (List.mem_cons_self p pre)
    have h4 : ¬ (jsSplit p ':').length < 4 := by have := hp.1; omega
    have hrec := ih (fun x hx => hpre x (List.mem_cons_of_mem p hx)) hr
    cases httl : jsParseInt ((jsSplit p ':').getD 3 "") with
    | none => exact absurd httl hp.2
    | some t =>
      have hsplit : (p :: pre) ++ r :: rest = p :: (pre ++ r :: rest) := rfl
      rw [hsplit]
      simp only [Route53.parseDNSRecords]
      rw [if_neg h4]
      simp only [httl]
      rw [hrec]

/-- C8: every DNS record option must split into at least 4 colon-delimited
parts with a numeric TTL; the first record that fails aborts with a message
naming that raw record and the reason (too few parts, or the invalid TTL
part), and no artifact is produced for the module. -/
theorem c8_dns_record_parsing (rs pre rest : List String) (r : String)
    (o : Route53.Options) :
    ((Route53.parseDNSRecords rs).isOk = true ↔ ∀ x ∈ rs, Route53.dnsWellFormed x) ∧
    ((∀ p ∈ pre, Route53.dnsWellFormed p) → ¬ Route53.dnsWellFormed r →
      Route53.parseDNSRecords (pre ++ r :: rest) = .error (Route53.dnsErrFor r)) ∧
    ((jsSplit r ':').length < 4 →
      Route53.dnsErrFor r = ⟨1, Route53.dnsFormatMsg r⟩) ∧
    (¬ (jsSplit r ':').length < 4 →
      Route53.dnsErrFor r = ⟨1, Route53.dnsTtlMsg ((jsSplit r ':').getD 3 "") r⟩) ∧
    ((∃ x ∈ o.record, ¬ Route53.dnsWellFormed x) →
      ∃ e, Route53.generate o = .error e) := by
  refine ⟨r53_parse_ok_iff rs, r53_parse_prefix_fail pre r rest, ?_, ?_, ?_⟩
  · intro h; simp [Route53.dnsErrFor, h]
  · intro h; simp [Route53.dnsErrFor, h]
  · rintro ⟨x, hx, hbad⟩
    cases hres : Route53.resolve o with
    | error e => exact ⟨e, by simp only [Route53.generate, hres]⟩
    | ok u =>
      cases u
      have hne : (Route53.parseDNSRecords o.record).isOk ≠ true := by
        intro hok
        exact hbad ((r53_parse_ok_iff o.record).mp hok x hx)
      cases hp : Route53.parseDNSRecords o.record with
      | error e => exact ⟨e, by simp only [Route53.generate, hres, hp]⟩
      | ok recs => exact absurd (by rw [hp]; rfl) hne

/-- Witness for C8: one good record parses; a prefix of good records
followed by the bad record "bad" aborts with the too-few-parts message for
"bad"; and generation for a module with a bad record yields no artifacts. -/
theorem c8_witness :
    ((Route53.parseDNSRecords ["a:www:1.2.3.4:300"]).isOk = true) ∧
    (Route53.parseDNSRecords ["a:www:1.2.3.4:300", "bad", "x:y:z:1"] =
      .error (Route53.dnsErrFor "bad")) ∧
    (Route53.dnsErrFor "bad" = ⟨1, Route53.dnsFormatMsg "bad"⟩) ∧
    (∃ e, Route53.generate r53Bad = .error e) := by
  obtain ⟨hiff, hpre, hfmt, _, hgen⟩ :=
    c8_dns_record_parsing ["a:www:1.2.3.4:300"] ["a:www:1.2.3.4:300"] ["x:y:z:1"] "bad" r53Bad
  exact ⟨hiff.mpr (by decide), hpre (by decide) (by decide), hfmt (by decide),
    hgen ⟨"bad", by decide, by decide⟩⟩

/-- Auxiliary: folding the literal capacity suffix the GSI variable line
receives under PROVISIONED billing. -/
theorem cap_suffix_fold (s : String) :
    s ++ ", read_capacity = " ++ "5" ++ ", write_capacity = " ++ "5" ++ " \x7d," =
      s ++ ", read_capacity = 5, write_capacity = 5 \x7d," := by
  rw [String.append_assoc, String.append_assoc, String.append_assoc, String.append_assoc]
  congr 1

/-- C9: under PROVISIONED billing a GSI record that omits both optional
capacity parts (at most 5 colon-delimited parts) is silently assigned
read_capacity 5 and write_capacity 5 in both the declarations and the
definition artifact, with no error or warning. -/
theorem c9_gsi_default_capacities (o : Dynamo.Options) (g : String)
    (hres : Dynamo.resolve o = .ok ()) (hbill : o.billingMode = "PROVISIONED")
    (hg : g ∈ o.gsi) (hparts : (jsSplit g ':').length ≤ 5) :
    (∃ pre : String, Dynamo.gsiVarLine o.billingMode g =
      pre ++ ", read_capacity = 5, write_capacity = 5 \x7d,") ∧
    Dynamo.gsiVarLine o.billingMode g ∈ Dynamo.variablesLines o ∧
    "    read_capacity      = 5" ∈ Dynamo.mainLines o ∧
    "    write_capacity     = 5" ∈ Dynamo.mainLines o ∧
    Dynamo.generate o =
      .ok (Dynamo.variablesLines o, Dynamo.mainLines o, Dynamo.outputsLines) := by
  have h5 : (jsSplit g ':').get? 5 = none := List.get?_eq_none.mpr (by omega)
  have h6 : (jsSplit g ':').get? 6 = none := List.get?_eq_none.mpr (by omega)
  have h5e : (jsSplit g ':')[5]? = none := by simpa using h5
  have h6e : (jsSplit g ':')[6]? = none := by simpa using h6
  have hglen : 0 < o.gsi.length := List.length_pos.mpr (List.ne_nil_of_mem hg)
  have hin : "    read_capacity      = 5" ∈ Dynamo.gsiMainLines o.billingMode g := by
    simp [Dynamo.gsiMainLines, hbill, h5e, h6e, jsOr]
  have hin2 : "    write_capacity     = 5" ∈ Dynamo.gsiMainLines o.billingMode g := by
    simp [Dynamo.gsiMainLines, hbill, h5e, h6e, jsOr]
  refine ⟨?_, ?_, ?_, ?_, ?_⟩
  · simp only [Dynamo.gsiVarLine, hbill, h5, h6, jsOr, eq_self_iff_true, if_true]
    exact ⟨_, cap_suffix_fold _⟩
  · have hx : Dynamo.gsiVarLine o.billingMode g ∈
        o.gsi.map (Dynamo.gsiVarLine o.billingMode) := List.mem_map_of_mem _ hg
    simp only [Dynamo.variablesLines, hglen, if_true, List.mem_append]
    tauto
  · have hflat : "    read_capacity      = 5" ∈
        o.gsi.flatMap (Dynamo.gsiMainLines o.billingMode) :=
      List.mem_flatMap.mpr ⟨g, hg, hin⟩
    simp only [Dynamo.mainLines, hglen, if_true, List.mem_append]
    tauto
  · have hflat : "    write_capacity     = 5" ∈
        o.gsi.flatMap (Dynamo.gsiMainLines o.billingMode) :=
      List.mem_flatMap.mpr ⟨g, hg, hin2⟩
    simp only [Dynamo.mainLines, hglen, if_true, List.mem_append]
    tauto
  · unfold Dynamo.generate
    rw [hres]

/-- Witness for C9 at a PROVISIONED module with the 3-part GSI record
byDate:date:S. -/
theorem c9_witness :
    (∃ pre : String, Dynamo.gsiVarLine dynamoProvisionedGsi.billingMode "byDate:date:S" =
      pre ++ ", read_capacity = 5, write_capacity = 5 \x7d,") ∧
    Dynamo.gsiVarLine dynamoProvisionedGsi.billingMode "byDate:date:S" ∈
      Dynamo.variablesLines dynamoProvisionedGsi ∧
    "    read_capacity      = 5" ∈ Dynamo.mainLines dynamoProvisionedGsi ∧
    "    write_capacity     = 5" ∈ Dynamo.mainLines dynamoProvisionedGsi ∧
    Dynamo.generate dynamoProvisionedGsi =
      .ok (Dynamo.variablesLines dynamoProvisionedGsi, Dynamo.mainLines dynamoProvisionedGsi,
        Dynamo.outputsLines) :=
  c9_gsi_default_capacities dynamoProvisionedGsi "byDate:date:S" rfl rfl (by decide) (by decide)

/-- Counterexample for C10: a DNS record with more than four colon-delimited
parts is not always accepted — when its fourth part is non-numeric the
parser rejects it. -/
theorem c10_counterexample :
    4 < (jsSplit "A:www:example.com:ttl:60" ':').length ∧
    Route53.parseDNSRecords ["A:www:example.com:ttl:60"] =
      .error ⟨1, Route53.dnsTtlMsg "ttl" "A:www:example.com:ttl:60"⟩ :=
  ⟨by decide, rfl⟩

/-- C10 amended: a record with more than four parts whose fourth part
parses as an integer is accepted without error: type, name, value and TTL
are taken from the first four parts (type upper-cased), all later parts are
silently discarded — so a record value containing a colon is truncated at
that colon, the remainder landing in the TTL position. -/
theorem c10_amended_extra_parts_discarded (r : String) (t : Int)
    (h4 : 4 < (jsSplit r ':').length)
    (ht : jsParseInt ((jsSplit r ':').getD 3 "") = some t) :
    Route53.parseDNSRecords [r] =
      .ok [⟨jsToUpper ((jsSplit r ':').getD 0 ""), (jsSplit r ':').getD 1 "",
        (jsSplit r ':').getD 2 "", t⟩] ∧
    Route53.parseDNSRecords ["A:www:10:20:300"] = .ok [⟨"A", "www", "10", 20⟩] := by
  constructor
  · simp only [Route53.parseDNSRecords]
    rw [if_neg (by omega)]
    simp only [ht]
  · rfl

/-- Witness for C10's amended statement at a 5-part record. -/
theorem c10_witness :
    Route53.parseDNSRecords ["cname:host:dest:120:extra"] =
      .ok [⟨jsToUpper ((jsSplit "cname:host:dest:120:extra" ':').getD 0 ""),
        (jsSplit "cname:host:dest:120:extra" ':').getD 1 "",
        (jsSplit "cname:host:dest:120:extra" ':').getD 2 "", 120⟩] ∧
    Route53.parseDNSRecords ["A:www:10:20:300"] = .ok [⟨"A", "www", "10", 20⟩] :=
  c10_amended_extra_parts_discarded "cname:host:dest:120:extra" 120 (by decide) (by decide)

end Infraflow
